import Mathlib

/-!
# Velarium — Orchestration & Proxy-Sync Engine: formal model

This file embeds the data model and the operations of Velarium's
Orchestration & Proxy-Sync Engine (Server Registry, Lifecycle Controller,
Proxy Config Synthesizer, Proxy Reload Coordinator) together with the
frontend `ServerList` component, and proves the specified properties
about them.

The engine itself is not present in the repository sources (the spec
notes the surrounding repository currently implements none of it), so the
engine definitions below are modelled from the specification text; the
`ServerList` definitions are translated from
`src/frontend/src/components/ServerList.tsx`.
-/

namespace Velarium

/-! ## Data model (spec §3) -/

/-- Modelled from the spec: `desiredState` enum of a `ManagedServer`
(`Absent`, `Created`, `Running`, `Stopped`). -/
inductive DesiredState
  | Absent
  | Created
  | Running
  | Stopped
deriving DecidableEq, Repr

/-- Modelled from the spec: `observedState` enum of a `ManagedServer`
(`Unknown`, `Creating`, `Running`, `Stopped`, `Removed`, `Errored`). -/
inductive ObservedState
  | Unknown
  | Creating
  | Running
  | Stopped
  | Removed
  | Errored
deriving DecidableEq, Repr

/-- Modelled from the spec: one `ManagedServer` row per game server.
Container and volume identifiers are modelled as natural numbers; the
`updatedAt` timestamp is omitted because no verified property mentions
it. -/
structure ManagedServer where
  id : Nat
  name : String
  templateRef : String
  containerRef : Option Nat
  desiredState : DesiredState
  observedState : ObservedState
  hostPort : Nat
  gamePort : Nat
  dataVolumeRef : Nat
  autoRestart : Bool
  lastError : Option String
deriving DecidableEq, Repr

/-- Modelled from the spec: a derived `ProxyRoute`
`{ backendId, host/virtualHost, address:port }`, generated solely from
`ManagedServer` rows with `observedState = Running`. -/
structure ProxyRoute where
  backendId : Nat
  virtualHost : String
  address : String
  port : Nat
deriving DecidableEq, Repr

/-! ## Proxy Config Synthesizer (spec §4.4) -/

/-- Modelled from the spec: the single container-runtime endpoint address
all backends live on. -/
def backendHost : String := "127.0.0.1"

/-- Modelled from the spec: the route derived from one Running row; the
proxy routes the virtual host `name` to the host-published port. -/
def routeOf (s : ManagedServer) : ProxyRoute :=
  { backendId := s.id
    virtualHost := s.name
    address := backendHost
    port := s.hostPort }

/-- Modelled from the spec: the rows of a registry snapshot with
`observedState = Running`; only these generate routes. -/
def runningRows (snap : List ManagedServer) : List ManagedServer :=
  snap.filter fun s => decide (s.observedState = ObservedState.Running)

/-- Ordering of rows by `name`, used for deterministic, diff-friendly
synthesizer output. -/
def byNameLE (s t : ManagedServer) : Prop := s.name ≤ t.name

instance : DecidableRel byNameLE :=
  fun s t => inferInstanceAs (Decidable (s.name ≤ t.name))

instance : IsTotal ManagedServer byNameLE :=
  ⟨fun a b => le_total a.name b.name⟩

instance : IsTrans ManagedServer byNameLE :=
  ⟨fun _ _ _ h₁ h₂ => le_trans h₁ h₂⟩

/-- Modelled from the spec: the ordered list of `ProxyRoute`s produced
from a registry snapshot — the Running rows, ordered by `name`, each
turned into a route. -/
def synthesizeRoutes (snap : List ManagedServer) : List ProxyRoute :=
  ((runningRows snap).insertionSort byNameLE).map routeOf

/-- Modelled from the spec: serialization of one route in the proxy
configuration format. -/
def serializeRoute (r : ProxyRoute) : String :=
  r.virtualHost ++ " = " ++ r.address ++ ":" ++ toString r.port ++ "\n"

/-- Modelled from the spec: the Proxy Config Synthesizer — a pure
function from a registry snapshot to the serialized proxy configuration
document. -/
def synthesize (snap : List ManagedServer) : String :=
  String.join ((synthesizeRoutes snap).map serializeRoute)

/-! ## Sorting by a duplicate-free key is permutation-invariant -/

/-- Two lists that are permutations of each other, each sorted by a key
that repeats in neither, are equal. -/
theorem eq_of_perm_of_sorted_key {α K : Type} [LinearOrder K] (key : α → K) :
    ∀ (l₁ l₂ : List α), l₁.Perm l₂ →
      l₁.Sorted (fun a b => key a ≤ key b) →
      l₂.Sorted (fun a b => key a ≤ key b) →
      (l₁.map key).Nodup → l₁ = l₂ := by
  intro l₁
  induction l₁ with
  | nil =>
    intro l₂ hp _ _ _
    exact (hp.symm.eq_nil).symm
  | cons a t ih =>
    intro l₂ hp hs₁ hs₂ hnd
    cases l₂ with
    | nil => exact absurd hp.eq_nil (List.cons_ne_nil a t)
    | cons b t₂ =>
      have hab : a = b := by
        have hbmem : b ∈ a :: t := hp.mem_iff.2 (List.mem_cons_self b t₂)
        rcases List.mem_cons.1 hbmem with h | hbt
        · exact h.symm
        · have hamem : a ∈ b :: t₂ := hp.mem_iff.1 (List.mem_cons_self a t)
          rcases List.mem_cons.1 hamem with h | hat
          · exact h
          · exfalso
            have h₁ : key a ≤ key b := List.rel_of_sorted_cons hs₁ b hbt
            have h₂ : key b ≤ key a := List.rel_of_sorted_cons hs₂ a hat
            have hk : key a = key b := le_antisymm h₁ h₂
            have hmem : key b ∈ t.map key := List.mem_map_of_mem key hbt
            rw [List.map_cons] at hnd
            exact (List.nodup_cons.1 hnd).1 (hk ▸ hmem)
      subst hab
      have hpt : t.Perm t₂ := hp.cons_inv
      have hteq : t = t₂ := by
        apply ih t₂ hpt hs₁.of_cons hs₂.of_cons
        rw [List.map_cons] at hnd
        exact (List.nodup_cons.1 hnd).2
      rw [hteq]

/-- C1: two registry snapshots containing the same set of
`ManagedServer` rows with `observedState = Running` (regardless of the
order rows were inserted) synthesize byte-identical serialized output,
and the emitted `ProxyRoute`s are ordered by server name.  The
duplicate-free-names hypothesis is the data-model invariant that `name`
is unique. -/
theorem synthesizer_deterministic_and_sorted (l₁ l₂ : List ManagedServer)
    (hperm : (runningRows l₁).Perm (runningRows l₂))
    (hnd : ((runningRows l₁).map ManagedServer.name).Nodup) :
    synthesize l₁ = synthesize l₂ ∧
      (synthesizeRoutes l₁).Sorted (fun p q => p.virtualHost ≤ q.virtualHost) := by
  have hsorteq :
      (runningRows l₁).insertionSort byNameLE =
        (runningRows l₂).insertionSort byNameLE := by
    apply eq_of_perm_of_sorted_key ManagedServer.name
    · exact ((List.perm_insertionSort byNameLE _).trans hperm).trans
        (List.perm_insertionSort byNameLE _).symm
    · exact List.sorted_insertionSort byNameLE _
    · exact List.sorted_insertionSort byNameLE _
    · exact (((List.perm_insertionSort byNameLE
        (runningRows l₁)).map ManagedServer.name).nodup_iff).2 hnd
  constructor
  · unfold synthesize synthesizeRoutes
    rw [hsorteq]
  · show (((runningRows l₁).insertionSort byNameLE).map routeOf).Pairwise _
    rw [List.pairwise_map]
    exact List.sorted_insertionSort byNameLE _

/-- A concrete `alpha` server row, Running. -/
def srvAlpha : ManagedServer :=
  { id := 1
    name := "alpha"
    templateRef := "paper"
    containerRef := some 11
    desiredState := DesiredState.Running
    observedState := ObservedState.Running
    hostPort := 25565
    gamePort := 8101
    dataVolumeRef := 1
    autoRestart := false
    lastError := none }

/-- A concrete `beta` server row, Running. -/
def srvBeta : ManagedServer :=
  { id := 2
    name := "beta"
    templateRef := "paper"
    containerRef := some 12
    desiredState := DesiredState.Running
    observedState := ObservedState.Running
    hostPort := 25566
    gamePort := 8102
    dataVolumeRef := 2
    autoRestart := false
    lastError := none }

/-- Witness for C1 at two concrete snapshots holding the same rows in
opposite insertion orders. -/
theorem synthesizer_deterministic_and_sorted_witness :
    (runningRows [srvAlpha, srvBeta]).Perm (runningRows [srvBeta, srvAlpha]) ∧
      ((runningRows [srvAlpha, srvBeta]).map ManagedServer.name).Nodup ∧
      (synthesize [srvAlpha, srvBeta] = synthesize [srvBeta, srvAlpha] ∧
        (synthesizeRoutes [srvAlpha, srvBeta]).Sorted
          (fun p q => p.virtualHost ≤ q.virtualHost)) :=
  ⟨by decide, by decide,
    synthesizer_deterministic_and_sorted [srvAlpha, srvBeta] [srvBeta, srvAlpha]
      (by decide) (by decide)⟩

/-! ## Server Registry (spec §4.2) -/

/-- Modelled from the spec: the configured port range.  Port pair `i`
is `(hostBase + i, gameBase + i)` for `i < portCount`. -/
structure RegistryConfig where
  hostBase : Nat
  gameBase : Nat
  portCount : Nat
deriving DecidableEq, Repr

/-- Modelled from the spec: the draft passed to `create`
(body of `POST /servers`: name, template, autoRestart). -/
structure ServerDraft where
  name : String
  templateRef : String
  autoRestart : Bool
deriving DecidableEq, Repr

/-- Modelled from the spec: non-retryable registry errors
(`DuplicateName`, `PortExhausted`) plus `NotFound` for unknown ids. -/
inductive RegError
  | DuplicateName
  | PortExhausted
  | NotFound
deriving DecidableEq, Repr

/-- Modelled from the spec: the Server Registry — the authoritative
view of every managed server, with its configured port range and the
next never-reused id. -/
structure Registry where
  cfg : RegistryConfig
  rows : List ManagedServer
  nextId : Nat
deriving DecidableEq, Repr

/-- Modelled from the spec: a `hostPort`/`gamePort` pair is taken when
some row with `observedState ≠ Removed` holds it. -/
def pairTaken (rows : List ManagedServer) (hp gp : Nat) : Bool :=
  rows.any fun s =>
    decide (s.observedState ≠ ObservedState.Removed ∧ s.hostPort = hp ∧ s.gamePort = gp)

/-- Port pair `i` of the configured range is free in `r`. -/
def freePair (r : Registry) (i : Nat) : Bool :=
  !pairTaken r.rows (r.cfg.hostBase + i) (r.cfg.gameBase + i)

/-- Modelled from the spec: port allocation picks the lowest free port
pair in the configured range. -/
def allocatePorts (r : Registry) : Option Nat :=
  (List.range r.cfg.portCount).find? (freePair r)

/-- Modelled from the spec: `create(draft)` — fails `PortExhausted` if
no free port pair exists in the configured range, fails `DuplicateName`
on a name collision, otherwise inserts a fresh row with
`desiredState = Created`, `observedState = Unknown` and no container. -/
def Registry.create (r : Registry) (d : ServerDraft) :
    Except RegError (Registry × ManagedServer) :=
  match allocatePorts r with
  | none => Except.error RegError.PortExhausted
  | some i =>
    if r.rows.any (fun s =>
        decide (s.name = d.name ∧ s.observedState ≠ ObservedState.Removed)) then
      Except.error RegError.DuplicateName
    else
      let srv : ManagedServer :=
        { id := r.nextId
          name := d.name
          templateRef := d.templateRef
          containerRef := none
          desiredState := DesiredState.Created
          observedState := ObservedState.Unknown
          hostPort := r.cfg.hostBase + i
          gamePort := r.cfg.gameBase + i
          dataVolumeRef := r.nextId
          autoRestart := d.autoRestart
          lastError := none }
      Except.ok ({ r with rows := r.rows ++ [srv], nextId := r.nextId + 1 }, srv)

/-- The row update performed by `updateState` on the row holding `sid`. -/
def setObserved (sid : Nat) (obs : ObservedState) (cref : Option Nat)
    (err : Option String) (t : ManagedServer) : ManagedServer :=
  if t.id = sid then
    { t with observedState := obs, containerRef := cref, lastError := err }
  else t

/-- Modelled from the spec: `updateState(id, observed, containerRef?,
error?)`.  A row with `observedState = Removed` is logically deleted
(the spec physically removes it once observed `Removed`), so it is
treated as absent. -/
def Registry.updateState (r : Registry) (sid : Nat) (obs : ObservedState)
    (cref : Option Nat) (err : Option String) : Except RegError Registry :=
  match r.rows.find? (fun s => decide (s.id = sid)) with
  | none => Except.error RegError.NotFound
  | some s₀ =>
    if s₀.observedState = ObservedState.Removed then Except.error RegError.NotFound
    else Except.ok { r with rows := r.rows.map (setObserved sid obs cref err) }

/-- The row update performed by `markDesired` on the row holding `sid`. -/
def setDesired (sid : Nat) (d : DesiredState) (t : ManagedServer) : ManagedServer :=
  if t.id = sid then { t with desiredState := d } else t

/-- Modelled from the spec: `markDesired(id, desiredState)`. -/
def Registry.markDesired (r : Registry) (sid : Nat) (d : DesiredState) :
    Except RegError Registry :=
  if r.rows.any (fun s => decide (s.id = sid)) then
    Except.ok { r with rows := r.rows.map (setDesired sid d) }
  else Except.error RegError.NotFound

/-- Modelled from the spec: `remove(id)` — physical removal of the row
from the registry. -/
def Registry.remove (r : Registry) (sid : Nat) : Except RegError Registry :=
  if r.rows.any (fun s => decide (s.id = sid)) then
    Except.ok { r with rows := r.rows.filter (fun s => decide (s.id ≠ sid)) }
  else Except.error RegError.NotFound

/-- Modelled from the spec: the registry mutations.  All mutating
operations are serialized behind a single logical writer, so concurrent
callers — including N concurrent `create` callers — are modelled as an
arbitrary interleaving, i.e. an arbitrary sequence of operations. -/
inductive RegOp
  | create (d : ServerDraft)
  | updateState (sid : Nat) (obs : ObservedState) (cref : Option Nat)
      (err : Option String)
  | markDesired (sid : Nat) (d : DesiredState)
  | remove (sid : Nat)
deriving DecidableEq, Repr

/-- One serialized registry operation; a failed operation leaves the
registry unchanged. -/
def regStep (r : Registry) (op : RegOp) : Registry :=
  match op with
  | RegOp.create d =>
    match r.create d with
    | Except.ok (r', _) => r'
    | Except.error _ => r
  | RegOp.updateState sid obs cref err =>
    match r.updateState sid obs cref err with
    | Except.ok r' => r'
    | Except.error _ => r
  | RegOp.markDesired sid d =>
    match r.markDesired sid d with
    | Except.ok r' => r'
    | Except.error _ => r
  | RegOp.remove sid =>
    match r.remove sid with
    | Except.ok r' => r'
    | Except.error _ => r

/-- The empty registry. -/
def initRegistry (cfg : RegistryConfig) : Registry :=
  { cfg := cfg, rows := [], nextId := 0 }

/-- The registry reached from empty by a sequence of serialized
operations. -/
def runRegOps (cfg : RegistryConfig) (ops : List RegOp) : Registry :=
  ops.foldl regStep (initRegistry cfg)

/-- No two rows with `observedState ≠ Removed` hold the same
`hostPort`/`gamePort` pair. -/
def portsOk (rows : List ManagedServer) : Prop :=
  rows.Pairwise fun s t =>
    s.observedState ≠ ObservedState.Removed →
      t.observedState ≠ ObservedState.Removed →
        ¬(s.hostPort = t.hostPort ∧ s.gamePort = t.gamePort)

/-- Auxiliary invariant: ids are pairwise distinct and below `nextId`
(ids are never reused). -/
def idsOk (r : Registry) : Prop :=
  (r.rows.map ManagedServer.id).Nodup ∧ ∀ s ∈ r.rows, s.id < r.nextId

/-- Combined registry invariant. -/
def regInv (r : Registry) : Prop := portsOk r.rows ∧ idsOk r

/-- Lemma: `find?` over `range'` returns the least element satisfying the
predicate. -/
theorem find?_range'_spec (p : Nat → Bool) :
    ∀ (n s i : Nat), (List.range' s n).find? p = some i →
      p i = true ∧ s ≤ i ∧ i < s + n ∧ ∀ j, s ≤ j → j < i → p j = false := by
  intro n
  induction n with
  | zero => intro s i h; simp [List.range'] at h
  | succ n ih =>
    intro s i h
    rw [List.range'_succ] at h
    by_cases hp : p s = true
    · rw [List.find?_cons_of_pos _ hp] at h
      injection h with h
      subst h
      refine ⟨hp, le_refl s, by omega, ?_⟩
      intro j h₁ h₂
      exact absurd (Nat.lt_of_le_of_lt h₁ h₂) (Nat.lt_irrefl s)
    · rw [List.find?_cons_of_neg _ hp] at h
      obtain ⟨hpi, hsi, hlt, hmin⟩ := ih (s + 1) i h
      refine ⟨hpi, by omega, by omega, ?_⟩
      intro j h₁ h₂
      rcases Nat.eq_or_lt_of_le h₁ with h₃ | h₃
      · rw [← h₃]
        exact Bool.eq_false_iff.2 hp
      · exact hmin j h₃ h₂

/-- What a successful port allocation guarantees: the chosen pair is in
range, free, and every lower pair in the range is taken. -/
theorem allocatePorts_some (r : Registry) (i : Nat) (h : allocatePorts r = some i) :
    i < r.cfg.portCount ∧ freePair r i = true ∧
      ∀ j, j < i → freePair r j = false := by
  unfold allocatePorts at h
  rw [List.range_eq_range'] at h
  obtain ⟨hp, _, hlt, hmin⟩ := find?_range'_spec (freePair r) r.cfg.portCount 0 i h
  exact ⟨by omega, hp, fun j hj => hmin j (Nat.zero_le j) hj⟩

/-- A pair reported free is held by no non-removed row. -/
theorem pairTaken_false {rows : List ManagedServer} {hp gp : Nat}
    (h : pairTaken rows hp gp = false) :
    ∀ s ∈ rows, s.observedState ≠ ObservedState.Removed →
      ¬(s.hostPort = hp ∧ s.gamePort = gp) := by
  intro s hs hno hpg
  have hall := List.any_eq_false.1 h s hs
  exact hall (by simpa using And.intro hno hpg)

/-- Appending a fresh row whose id is `nextId` and whose port pair is
free preserves the registry invariant. -/
theorem regInv_append_fresh (r : Registry) (srv : ManagedServer) (hinv : regInv r)
    (hid : srv.id = r.nextId)
    (hfree : pairTaken r.rows srv.hostPort srv.gamePort = false) :
    regInv { r with rows := r.rows ++ [srv], nextId := r.nextId + 1 } := by
  refine ⟨?_, ?_, ?_⟩
  · show portsOk (r.rows ++ [srv])
    unfold portsOk
    rw [List.pairwise_append]
    refine ⟨hinv.1, List.pairwise_singleton _ _, ?_⟩
    intro s hs t ht
    rw [List.mem_singleton] at ht
    subst ht
    intro hsno _ hpg
    exact pairTaken_false hfree s hs hsno hpg
  · show ((r.rows ++ [srv]).map ManagedServer.id).Nodup
    rw [List.map_append, List.nodup_append]
    refine ⟨hinv.2.1, List.nodup_singleton _, ?_⟩
    intro a ha hb
    rw [List.map_singleton, List.mem_singleton] at hb
    subst hb
    obtain ⟨s, hs, hsid⟩ := List.mem_map.1 ha
    have h₁ := hinv.2.2 s hs
    omega
  · intro s hs
    rw [show ({ r with rows := r.rows ++ [srv], nextId := r.nextId + 1 } :
        Registry).rows = r.rows ++ [srv] from rfl, List.mem_append] at hs
    rcases hs with hs | hs
    · exact Nat.lt_succ_of_lt (hinv.2.2 s hs)
    · rw [List.mem_singleton] at hs
      subst hs
      rw [hid]
      exact Nat.lt_succ_self _

/-- Lemma: `create` preserves the registry invariant. -/
theorem regInv_create (r : Registry) (d : ServerDraft) (r' : Registry)
    (srv : ManagedServer) (hinv : regInv r)
    (h : r.create d = Except.ok (r', srv)) : regInv r' := by
  unfold Registry.create at h
  split at h
  · cases h
  · rename_i i halloc
    split at h
    · cases h
    · simp only [Except.ok.injEq, Prod.mk.injEq] at h
      obtain ⟨rfl, rfl⟩ := h
      have hfree : freePair r i = true := (allocatePorts_some r i halloc).2.1
      have htaken : pairTaken r.rows (r.cfg.hostBase + i) (r.cfg.gameBase + i) = false := by
        simpa [freePair] using hfree
      exact regInv_append_fresh r _ hinv rfl htaken

/-- Lemma: `setObserved` changes neither id nor ports. -/
theorem setObserved_id (sid : Nat) (obs : ObservedState) (cref : Option Nat)
    (err : Option String) (t : ManagedServer) :
    (setObserved sid obs cref err t).id = t.id := by
  unfold setObserved; split <;> rfl

/-- Lemma: `setObserved` leaves `hostPort` unchanged. -/
theorem setObserved_hostPort (sid : Nat) (obs : ObservedState) (cref : Option Nat)
    (err : Option String) (t : ManagedServer) :
    (setObserved sid obs cref err t).hostPort = t.hostPort := by
  unfold setObserved; split <;> rfl

/-- Lemma: `setObserved` leaves `gamePort` unchanged. -/
theorem setObserved_gamePort (sid : Nat) (obs : ObservedState) (cref : Option Nat)
    (err : Option String) (t : ManagedServer) :
    (setObserved sid obs cref err t).gamePort = t.gamePort := by
  unfold setObserved; split <;> rfl

/-- Lemma: `updateState` preserves the registry invariant: it touches only the
(unique) targeted row, which was not `Removed`, and changes no ports. -/
theorem regInv_updateState (r : Registry) (sid : Nat) (obs : ObservedState)
    (cref : Option Nat) (err : Option String) (r' : Registry) (hinv : regInv r)
    (h : r.updateState sid obs cref err = Except.ok r') : regInv r' := by
  unfold Registry.updateState at h
  split at h
  · cases h
  · rename_i s₀ hfind
    split at h
    · cases h
    · rename_i hs₀obs
      injection h with h
      subst h
      have hs₀mem : s₀ ∈ r.rows := List.mem_of_find?_eq_some hfind
      have hs₀id : s₀.id = sid := by simpa using List.find?_some hfind
      have hkeep : ∀ t ∈ r.rows,
          (setObserved sid obs cref err t).observedState ≠ ObservedState.Removed →
            t.observedState ≠ ObservedState.Removed := by
        intro t ht hft
        by_cases htid : t.id = sid
        · have : t = s₀ :=
            List.inj_on_of_nodup_map hinv.2.1 ht hs₀mem (by rw [htid, hs₀id])
          rw [this]
          exact hs₀obs
        · simpa [setObserved, htid] using hft
      refine ⟨?_, ?_, ?_⟩
      · show ((r.rows.map (setObserved sid obs cref err)).Pairwise _)
        rw [List.pairwise_map]
        refine List.Pairwise.imp_of_mem ?_ hinv.1
        intro a b ha hb hrel hfa hfb
        rw [setObserved_hostPort, setObserved_gamePort,
          setObserved_hostPort, setObserved_gamePort]
        exact hrel (hkeep a ha hfa) (hkeep b hb hfb)
      · show ((r.rows.map (setObserved sid obs cref err)).map ManagedServer.id).Nodup
        rw [List.map_map]
        have : r.rows.map (ManagedServer.id ∘ setObserved sid obs cref err) =
            r.rows.map ManagedServer.id :=
          List.map_congr_left fun t _ => setObserved_id sid obs cref err t
        rw [this]
        exact hinv.2.1
      · intro s hs
        obtain ⟨t, ht, rfl⟩ := List.mem_map.1 hs
        rw [setObserved_id]
        exact hinv.2.2 t ht

/-- Lemma: `setDesired` changes neither id, ports, nor the observed state. -/
theorem setDesired_fields (sid : Nat) (d : DesiredState) (t : ManagedServer) :
    (setDesired sid d t).id = t.id ∧
      (setDesired sid d t).hostPort = t.hostPort ∧
      (setDesired sid d t).gamePort = t.gamePort ∧
      (setDesired sid d t).observedState = t.observedState := by
  unfold setDesired; split <;> exact ⟨rfl, rfl, rfl, rfl⟩

/-- Lemma: `markDesired` preserves the registry invariant. -/
theorem regInv_markDesired (r : Registry) (sid : Nat) (d : DesiredState)
    (r' : Registry) (hinv : regInv r)
    (h : r.markDesired sid d = Except.ok r') : regInv r' := by
  unfold Registry.markDesired at h
  split at h
  · injection h with h
    subst h
    refine ⟨?_, ?_, ?_⟩
    · show ((r.rows.map (setDesired sid d)).Pairwise _)
      rw [List.pairwise_map]
      refine List.Pairwise.imp_of_mem ?_ hinv.1
      intro a b _ _ hrel hfa hfb
      obtain ⟨_, hh₁, hg₁, ho₁⟩ := setDesired_fields sid d a
      obtain ⟨_, hh₂, hg₂, ho₂⟩ := setDesired_fields sid d b
      rw [hh₁, hg₁, hh₂, hg₂]
      rw [ho₁] at hfa
      rw [ho₂] at hfb
      exact hrel hfa hfb
    · show ((r.rows.map (setDesired sid d)).map ManagedServer.id).Nodup
      rw [List.map_map]
      have : r.rows.map (ManagedServer.id ∘ setDesired sid d) =
          r.rows.map ManagedServer.id :=
        List.map_congr_left fun t _ => (setDesired_fields sid d t).1
      rw [this]
      exact hinv.2.1
    · intro s hs
      obtain ⟨t, ht, rfl⟩ := List.mem_map.1 hs
      rw [(setDesired_fields sid d t).1]
      exact hinv.2.2 t ht
  · cases h

/-- Lemma: `remove` preserves the registry invariant. -/
theorem regInv_remove (r : Registry) (sid : Nat) (r' : Registry) (hinv : regInv r)
    (h : r.remove sid = Except.ok r') : regInv r' := by
  unfold Registry.remove at h
  split at h
  · injection h with h
    subst h
    refine ⟨?_, ?_, ?_⟩
    · exact List.Pairwise.sublist (List.filter_sublist r.rows) hinv.1
    · exact List.Nodup.sublist
        (List.Sublist.map ManagedServer.id (List.filter_sublist r.rows)) hinv.2.1
    · intro s hs
      exact hinv.2.2 s (List.mem_of_mem_filter hs)
  · cases h

/-- Every serialized registry operation preserves the invariant. -/
theorem regInv_step (r : Registry) (op : RegOp) (hinv : regInv r) :
    regInv (regStep r op) := by
  cases op with
  | create d =>
    show regInv (match r.create d with
      | Except.ok (r', _) => r'
      | Except.error _ => r)
    cases h : r.create d with
    | ok p =>
      obtain ⟨r', srv⟩ := p
      exact regInv_create r d r' srv hinv h
    | error e => exact hinv
  | updateState sid obs cref err =>
    show regInv (match r.updateState sid obs cref err with
      | Except.ok r' => r'
      | Except.error _ => r)
    cases h : r.updateState sid obs cref err with
    | ok r' => exact regInv_updateState r sid obs cref err r' hinv h
    | error e => exact hinv
  | markDesired sid d =>
    show regInv (match r.markDesired sid d with
      | Except.ok r' => r'
      | Except.error _ => r)
    cases h : r.markDesired sid d with
    | ok r' => exact regInv_markDesired r sid d r' hinv h
    | error e => exact hinv
  | remove sid =>
    show regInv (match r.remove sid with
      | Except.ok r' => r'
      | Except.error _ => r)
    cases h : r.remove sid with
    | ok r' => exact regInv_remove r sid r' hinv h
    | error e => exact hinv

/-- The invariant holds along any serialized run. -/
theorem regInv_foldl (ops : List RegOp) :
    ∀ r : Registry, regInv r → regInv (ops.foldl regStep r) := by
  induction ops with
  | nil => intro r h; exact h
  | cons op rest ih => intro r h; exact ih (regStep r op) (regInv_step r op h)

/-- The empty registry satisfies the invariant. -/
theorem regInv_init (cfg : RegistryConfig) : regInv (initRegistry cfg) :=
  ⟨List.Pairwise.nil, List.nodup_nil, fun s hs => absurd hs (List.not_mem_nil s)⟩

/-- C2: in every reachable registry state no two rows with
`observedState ≠ Removed` hold the same `hostPort`/`gamePort` pair.
Reachable states are those produced by an arbitrary sequence of
serialized registry operations starting from the empty registry; by the
single-writer contract of §4.2 this covers concurrent `create` calls
from N callers, whose effects are queued into such a sequence. -/
theorem registry_ports_pair_unique (cfg : RegistryConfig) (ops : List RegOp) :
    portsOk (runRegOps cfg ops).rows :=
  (regInv_foldl ops (initRegistry cfg) (regInv_init cfg)).1

/-- C3: `create` allocates the lowest free port pair of the configured
range (hence allocation is reproducible: `create` is a pure function of
the registry state), and fails with `PortExhausted` exactly when no
free port pair exists in the range. -/
theorem create_allocates_lowest_free_pair (r : Registry) (d : ServerDraft) :
    (∀ r' srv, r.create d = Except.ok (r', srv) →
      ∃ i, i < r.cfg.portCount ∧
        srv.hostPort = r.cfg.hostBase + i ∧ srv.gamePort = r.cfg.gameBase + i ∧
        freePair r i = true ∧ ∀ j, j < i → freePair r j = false) ∧
    ((∀ i, i < r.cfg.portCount → freePair r i = false) →
      r.create d = Except.error RegError.PortExhausted) := by
  constructor
  · intro r' srv h
    unfold Registry.create at h
    split at h
    · cases h
    · rename_i i halloc
      split at h
      · cases h
      · simp only [Except.ok.injEq, Prod.mk.injEq] at h
        obtain ⟨rfl, rfl⟩ := h
        obtain ⟨hlt, hfree, hmin⟩ := allocatePorts_some r i halloc
        exact ⟨i, hlt, rfl, rfl, hfree, hmin⟩
  · intro hall
    have hnone : allocatePorts r = none := by
      unfold allocatePorts
      rw [List.find?_eq_none]
      intro x hx
      rw [List.mem_range] at hx
      simp [hall x hx]
    unfold Registry.create
    rw [hnone]

/-- A registry with one free pair left above `alpha`. -/
def regWitness : Registry :=
  { cfg := { hostBase := 25565, gameBase := 8101, portCount := 2 }
    rows := [srvAlpha]
    nextId := 5 }

/-- A registry whose single configured pair is already held. -/
def regExhausted : Registry :=
  { cfg := { hostBase := 25565, gameBase := 8101, portCount := 1 }
    rows := [srvAlpha]
    nextId := 5 }

/-- A concrete creation draft. -/
def draftGamma : ServerDraft :=
  { name := "gamma", templateRef := "paper", autoRestart := true }

/-- The registry produced by creating `gamma` in `regWitness`. -/
def regWitnessAfter : Registry :=
  { cfg := { hostBase := 25565, gameBase := 8101, portCount := 2 }
    rows := [srvAlpha,
      { id := 5
        name := "gamma"
        templateRef := "paper"
        containerRef := none
        desiredState := DesiredState.Created
        observedState := ObservedState.Unknown
        hostPort := 25566
        gamePort := 8102
        dataVolumeRef := 5
        autoRestart := true
        lastError := none }]
    nextId := 6 }

/-- The row produced by creating `gamma` in `regWitness`. -/
def srvGamma : ManagedServer :=
  { id := 5
    name := "gamma"
    templateRef := "paper"
    containerRef := none
    desiredState := DesiredState.Created
    observedState := ObservedState.Unknown
    hostPort := 25566
    gamePort := 8102
    dataVolumeRef := 5
    autoRestart := true
    lastError := none }

/-- Witness for C3 at concrete registries: with pair 0 taken by `alpha`,
`create` picks pair 1 (the lowest free one); with every pair of the
range taken, `create` fails `PortExhausted`. -/
theorem create_allocates_lowest_free_pair_witness :
    (∃ i, i < regWitness.cfg.portCount ∧
        srvGamma.hostPort = regWitness.cfg.hostBase + i ∧
        srvGamma.gamePort = regWitness.cfg.gameBase + i ∧
        freePair regWitness i = true ∧
        ∀ j, j < i → freePair regWitness j = false) ∧
      regExhausted.create draftGamma = Except.error RegError.PortExhausted :=
  ⟨(create_allocates_lowest_free_pair regWitness draftGamma).1
      regWitnessAfter srvGamma rfl,
    (create_allocates_lowest_free_pair regExhausted draftGamma).2 (by decide)⟩

/-! ## Lifecycle Controller (spec §4.3) -/

/-- Modelled from the spec: the runtime calls issued by the controller
through the Runtime Client Adapter. -/
inductive RuntimeCall
  | create (serverId : Nat)
  | start (cref : Nat)
  | stop (cref : Nat)
  | remove (cref : Nat)
deriving DecidableEq, Repr

/-- Modelled from the spec: the lifecycle operation in flight for one
server id, with the container it operates on once known. -/
inductive PendingOp
  | creating
  | creatingStarted (cref : Nat)
  | starting (cref : Nat)
  | stopping (cref : Nat)
  | deleting (cref : Option Nat)
deriving DecidableEq, Repr

/-- Modelled from the spec: lifecycle errors surfaced to callers,
including `OperationInProgress` for a second request on a busy id. -/
inductive LcError
  | OperationInProgress
  | NotFound
  | InvalidState
  | registry (e : RegError)
deriving DecidableEq, Repr

/-- Modelled from the spec: how an outstanding runtime call resolved. -/
inductive RuntimeOutcome
  | ok
  | unavailable (msg : String)
  | notFound
deriving DecidableEq, Repr

/-- Modelled from the spec: controller state — the registry it owns, the
per-id in-flight operations (at most one per id is ever admitted), and
the log of runtime calls issued so far. -/
structure SysState where
  reg : Registry
  inFlight : List (Nat × PendingOp)
  calls : List RuntimeCall
deriving Repr

/-- An operation is in flight for `sid`. -/
def busy (s : SysState) (sid : Nat) : Bool :=
  s.inFlight.any fun p => decide (p.1 = sid)

/-- Look up the row of server `sid`. -/
def findRow (r : Registry) (sid : Nat) : Option ManagedServer :=
  r.rows.find? fun s => decide (s.id = sid)

/-- Applies `updateState`, with a failed update leaving the registry unchanged. -/
def applyUpdate (r : Registry) (sid : Nat) (obs : ObservedState)
    (cref : Option Nat) (err : Option String) : Registry :=
  match r.updateState sid obs cref err with
  | Except.ok r' => r'
  | Except.error _ => r

/-- Applies `markDesired`, with a failed update leaving the registry unchanged. -/
def applyMark (r : Registry) (sid : Nat) (d : DesiredState) : Registry :=
  match r.markDesired sid d with
  | Except.ok r' => r'
  | Except.error _ => r

/-- Applies `remove`, with a failed removal leaving the registry unchanged. -/
def applyRemove (r : Registry) (sid : Nat) : Registry :=
  match r.remove sid with
  | Except.ok r' => r'
  | Except.error _ => r

/-- Modelled from the spec: the discrete events driving the controller —
operator requests, plus the asynchronous resolutions of outstanding
runtime calls (`containerCreated`/`createCallFailed` resolve the
runtime `create` call, `opFinished` resolves the rest). -/
inductive SysEvent
  | requestCreate (d : ServerDraft)
  | requestStart (sid : Nat)
  | requestStop (sid : Nat)
  | requestDelete (sid : Nat)
  | containerCreated (sid : Nat) (cref : Nat)
  | createCallFailed (sid : Nat) (msg : String)
  | opFinished (sid : Nat) (outcome : RuntimeOutcome)
deriving DecidableEq, Repr

/-- Modelled from the spec: one step of the Lifecycle Controller.  Each
request first checks the per-id exclusivity token (`busy`) and fails
`OperationInProgress` without issuing any runtime call if an operation
is in flight.  State updates keep the `containerRef`/`observedState`
consistency of §3: a runtime-`create` failure before any container
exists records `lastError` on the still-`Unknown` row (the §3 invariant
forbids `Errored` with a null `containerRef`); after a container
exists, failures settle in `Errored` with the container recorded and a
best-effort teardown `remove` is issued for a half-created container.
`RuntimeNotFound` reconciles the row to `Removed`. -/
def sysStep (s : SysState) (ev : SysEvent) : SysState × Except LcError Unit :=
  match ev with
  | SysEvent.requestCreate d =>
    match s.reg.create d with
    | Except.error e => (s, Except.error (LcError.registry e))
    | Except.ok (reg', srv) =>
      ({ reg := reg'
         inFlight := (srv.id, PendingOp.creating) :: s.inFlight
         calls := s.calls ++ [RuntimeCall.create srv.id] }, Except.ok ())
  | SysEvent.requestStart sid =>
    if busy s sid then (s, Except.error LcError.OperationInProgress)
    else
      match findRow s.reg sid with
      | none => (s, Except.error LcError.NotFound)
      | some row =>
        if row.observedState = ObservedState.Stopped then
          match row.containerRef with
          | some c =>
            ({ reg := applyMark s.reg sid DesiredState.Running
               inFlight := (sid, PendingOp.starting c) :: s.inFlight
               calls := s.calls ++ [RuntimeCall.start c] }, Except.ok ())
          | none => (s, Except.error LcError.InvalidState)
        else (s, Except.error LcError.InvalidState)
  | SysEvent.requestStop sid =>
    if busy s sid then (s, Except.error LcError.OperationInProgress)
    else
      match findRow s.reg sid with
      | none => (s, Except.error LcError.NotFound)
      | some row =>
        if row.observedState = ObservedState.Running then
          match row.containerRef with
          | some c =>
            ({ reg := applyMark s.reg sid DesiredState.Stopped
               inFlight := (sid, PendingOp.stopping c) :: s.inFlight
               calls := s.calls ++ [RuntimeCall.stop c] }, Except.ok ())
          | none => (s, Except.error LcError.InvalidState)
        else (s, Except.error LcError.InvalidState)
  | SysEvent.requestDelete sid =>
    if busy s sid then (s, Except.error LcError.OperationInProgress)
    else
      match findRow s.reg sid with
      | none => (s, Except.error LcError.NotFound)
      | some row =>
        ({ reg := applyMark s.reg sid DesiredState.Absent
           inFlight := (sid, PendingOp.deleting row.containerRef) :: s.inFlight
           calls := s.calls ++
             (match row.containerRef with
              | some c =>
                (if row.observedState = ObservedState.Running
                 then [RuntimeCall.stop c] else []) ++ [RuntimeCall.remove c]
              | none => []) }, Except.ok ())
  | SysEvent.containerCreated sid cref =>
    match s.inFlight.find? (fun p => decide (p.1 = sid)) with
    | some (_, PendingOp.creating) =>
      ({ reg := applyUpdate s.reg sid ObservedState.Creating (some cref) none
         inFlight := s.inFlight.map fun p =>
           if p.1 = sid then (sid, PendingOp.creatingStarted cref) else p
         calls := s.calls ++ [RuntimeCall.start cref] }, Except.ok ())
    | _ => (s, Except.error LcError.NotFound)
  | SysEvent.createCallFailed sid msg =>
    match s.inFlight.find? (fun p => decide (p.1 = sid)) with
    | some (_, PendingOp.creating) =>
      ({ reg := applyUpdate s.reg sid ObservedState.Unknown none (some msg)
         inFlight := s.inFlight.filter fun p => decide (p.1 ≠ sid)
         calls := s.calls }, Except.ok ())
    | _ => (s, Except.error LcError.NotFound)
  | SysEvent.opFinished sid outcome =>
    match s.inFlight.find? (fun p => decide (p.1 = sid)) with
    | none => (s, Except.error LcError.NotFound)
    | some (_, pending) =>
      match pending, outcome with
      | PendingOp.creating, _ => (s, Except.error LcError.InvalidState)
      | PendingOp.creatingStarted c, RuntimeOutcome.ok =>
        ({ reg := applyUpdate s.reg sid ObservedState.Running (some c) none
           inFlight := s.inFlight.filter fun p => decide (p.1 ≠ sid)
           calls := s.calls }, Except.ok ())
      | PendingOp.creatingStarted c, RuntimeOutcome.unavailable m =>
        ({ reg := applyUpdate s.reg sid ObservedState.Errored (some c) (some m)
           inFlight := s.inFlight.filter fun p => decide (p.1 ≠ sid)
           calls := s.calls ++ [RuntimeCall.remove c] }, Except.ok ())
      | PendingOp.creatingStarted _, RuntimeOutcome.notFound =>
        ({ reg := applyUpdate s.reg sid ObservedState.Removed none none
           inFlight := s.inFlight.filter fun p => decide (p.1 ≠ sid)
           calls := s.calls }, Except.ok ())
      | PendingOp.starting c, RuntimeOutcome.ok =>
        ({ reg := applyUpdate s.reg sid ObservedState.Running (some c) none
           inFlight := s.inFlight.filter fun p => decide (p.1 ≠ sid)
           calls := s.calls }, Except.ok ())
      | PendingOp.starting c, RuntimeOutcome.unavailable m =>
        ({ reg := applyUpdate s.reg sid ObservedState.Errored (some c) (some m)
           inFlight := s.inFlight.filter fun p => decide (p.1 ≠ sid)
           calls := s.calls }, Except.ok ())
      | PendingOp.starting _, RuntimeOutcome.notFound =>
        ({ reg := applyUpdate s.reg sid ObservedState.Removed none none
           inFlight := s.inFlight.filter fun p => decide (p.1 ≠ sid)
           calls := s.calls }, Except.ok ())
      | PendingOp.stopping c, RuntimeOutcome.ok =>
        ({ reg := applyUpdate s.reg sid ObservedState.Stopped (some c) none
           inFlight := s.inFlight.filter fun p => decide (p.1 ≠ sid)
           calls := s.calls }, Except.ok ())
      | PendingOp.stopping c, RuntimeOutcome.unavailable m =>
        ({ reg := applyUpdate s.reg sid ObservedState.Errored (some c) (some m)
           inFlight := s.inFlight.filter fun p => decide (p.1 ≠ sid)
           calls := s.calls }, Except.ok ())
      | PendingOp.stopping _, RuntimeOutcome.notFound =>
        ({ reg := applyUpdate s.reg sid ObservedState.Removed none none
           inFlight := s.inFlight.filter fun p => decide (p.1 ≠ sid)
           calls := s.calls }, Except.ok ())
      | PendingOp.deleting _, RuntimeOutcome.ok =>
        ({ reg := applyRemove s.reg sid
           inFlight := s.inFlight.filter fun p => decide (p.1 ≠ sid)
           calls := s.calls }, Except.ok ())
      | PendingOp.deleting (some c), RuntimeOutcome.unavailable m =>
        ({ reg := applyUpdate s.reg sid ObservedState.Errored (some c) (some m)
           inFlight := s.inFlight.filter fun p => decide (p.1 ≠ sid)
           calls := s.calls }, Except.ok ())
      | PendingOp.deleting none, RuntimeOutcome.unavailable _ =>
        ({ s with inFlight := s.inFlight.filter fun p => decide (p.1 ≠ sid) },
          Except.ok ())
      | PendingOp.deleting _, RuntimeOutcome.notFound =>
        ({ reg := applyRemove s.reg sid
           inFlight := s.inFlight.filter fun p => decide (p.1 ≠ sid)
           calls := s.calls }, Except.ok ())

/-- The initial controller state over an empty registry. -/
def sysInit (cfg : RegistryConfig) : SysState :=
  { reg := initRegistry cfg, inFlight := [], calls := [] }

/-- The controller state reached by a sequence of events. -/
def runSys (cfg : RegistryConfig) (evs : List SysEvent) : SysState :=
  evs.foldl (fun s ev => (sysStep s ev).1) (sysInit cfg)

/-- The §3 invariant: `containerRef` is non-null iff `observedState` is
one of {Creating, Running, Stopped, Errored}. -/
def crefOk (rows : List ManagedServer) : Prop :=
  ∀ s ∈ rows, s.containerRef ≠ none ↔
    (s.observedState = ObservedState.Creating ∨
      s.observedState = ObservedState.Running ∨
      s.observedState = ObservedState.Stopped ∨
      s.observedState = ObservedState.Errored)

/-- Lemma: `setDesired` leaves `containerRef` unchanged. -/
theorem setDesired_containerRef (sid : Nat) (d : DesiredState) (t : ManagedServer) :
    (setDesired sid d t).containerRef = t.containerRef := by
  unfold setDesired; split <;> rfl

/-- Lemma: `updateState` with a consistent (observed, containerRef) pair
preserves the §3 `containerRef` invariant. -/
theorem crefOk_applyUpdate (r : Registry) (sid : Nat) (obs : ObservedState)
    (cref : Option Nat) (err : Option String) (hok : crefOk r.rows)
    (hcons : cref ≠ none ↔
      (obs = ObservedState.Creating ∨ obs = ObservedState.Running ∨
        obs = ObservedState.Stopped ∨ obs = ObservedState.Errored)) :
    crefOk (applyUpdate r sid obs cref err).rows := by
  unfold applyUpdate
  split
  · rename_i r' h
    unfold Registry.updateState at h
    split at h
    · cases h
    · split at h
      · cases h
      · injection h with h
        subst h
        intro t ht
        obtain ⟨u, hu, rfl⟩ := List.mem_map.1 ht
        unfold setObserved
        split
        · exact hcons
        · exact hok u hu
  · exact hok

/-- Lemma: `markDesired` preserves the §3 `containerRef` invariant. -/
theorem crefOk_applyMark (r : Registry) (sid : Nat) (d : DesiredState)
    (hok : crefOk r.rows) : crefOk (applyMark r sid d).rows := by
  unfold applyMark
  split
  · rename_i r' h
    unfold Registry.markDesired at h
    split at h
    · injection h with h
      subst h
      intro t ht
      obtain ⟨u, hu, rfl⟩ := List.mem_map.1 ht
      rw [setDesired_containerRef, (setDesired_fields sid d u).2.2.2]
      exact hok u hu
    · cases h
  · exact hok

/-- Lemma: `remove` preserves the §3 `containerRef` invariant. -/
theorem crefOk_applyRemove (r : Registry) (sid : Nat) (hok : crefOk r.rows) :
    crefOk (applyRemove r sid).rows := by
  unfold applyRemove
  split
  · rename_i r' h
    unfold Registry.remove at h
    split at h
    · injection h with h
      subst h
      intro t ht
      exact hok t (List.mem_of_mem_filter ht)
    · cases h
  · exact hok

/-- Lemma: `create` preserves the §3 `containerRef` invariant: the fresh row
has no container and `observedState = Unknown`. -/
theorem crefOk_create (r : Registry) (d : ServerDraft) (r' : Registry)
    (srv : ManagedServer) (hok : crefOk r.rows)
    (h : r.create d = Except.ok (r', srv)) : crefOk r'.rows := by
  unfold Registry.create at h
  split at h
  · cases h
  · split at h
    · cases h
    · simp only [Except.ok.injEq, Prod.mk.injEq] at h
      obtain ⟨rfl, rfl⟩ := h
      intro t ht
      rcases List.mem_append.1 ht with h₁ | h₁
      · exact hok t h₁
      · rw [List.mem_singleton] at h₁
        subst h₁
        simp

/-- Every controller step preserves the §3 `containerRef` invariant:
each registry mutation it performs passes a consistent
(observed, containerRef) pair. -/
theorem crefOk_sysStep (s : SysState) (ev : SysEvent) (hok : crefOk s.reg.rows) :
    crefOk ((sysStep s ev).1.reg.rows) := by
  cases ev with
  | requestCreate d =>
    simp only [sysStep]
    split
    · exact hok
    · rename_i reg' srv heq
      exact crefOk_create s.reg d reg' srv hok heq
  | requestStart sid =>
    simp only [sysStep]
    split
    · exact hok
    · split
      · exact hok
      · split
        · split
          · exact crefOk_applyMark s.reg sid DesiredState.Running hok
          · exact hok
        · exact hok
  | requestStop sid =>
    simp only [sysStep]
    split
    · exact hok
    · split
      · exact hok
      · split
        · split
          · exact crefOk_applyMark s.reg sid DesiredState.Stopped hok
          · exact hok
        · exact hok
  | requestDelete sid =>
    simp only [sysStep]
    split
    · exact hok
    · split
      · exact hok
      · exact crefOk_applyMark s.reg sid DesiredState.Absent hok
  | containerCreated sid cref =>
    simp only [sysStep]
    split
    · exact crefOk_applyUpdate s.reg sid _ _ _ hok (by simp)
    · exact hok
  | createCallFailed sid msg =>
    simp only [sysStep]
    split
    · exact crefOk_applyUpdate s.reg sid _ _ _ hok (by simp)
    · exact hok
  | opFinished sid outcome =>
    simp only [sysStep]
    split
    · exact hok
    · split
      all_goals
        first
        | exact hok
        | exact crefOk_applyRemove s.reg sid hok
        | exact crefOk_applyUpdate s.reg sid _ _ _ hok (by simp)

/-- The §3 `containerRef` invariant holds along any controller run. -/
theorem crefOk_foldl (evs : List SysEvent) :
    ∀ s : SysState, crefOk s.reg.rows →
      crefOk ((evs.foldl (fun s ev => (sysStep s ev).1) s).reg.rows) := by
  induction evs with
  | nil => intro s h; exact h
  | cons ev rest ih => intro s h; exact ih ((sysStep s ev).1) (crefOk_sysStep s ev h)

/-- C4: in every reachable state, a row has a non-null `containerRef`
iff its `observedState` is one of {Creating, Running, Stopped, Errored};
reachable states are those produced by any sequence of Lifecycle
Controller events, which perform every registry operation the system
issues (§3: rows are mutated only by the Lifecycle Controller). -/
theorem container_ref_iff_observed (cfg : RegistryConfig) (evs : List SysEvent) :
    crefOk (runSys cfg evs).reg.rows :=
  crefOk_foldl evs (sysInit cfg) (fun s hs => absurd hs (List.not_mem_nil s))

/-- A lifecycle request targeting server id `sid`. -/
def requestsId : SysEvent → Nat → Prop
  | SysEvent.requestStart i, sid => i = sid
  | SysEvent.requestStop i, sid => i = sid
  | SysEvent.requestDelete i, sid => i = sid
  | _, _ => False

/-- C5: while a lifecycle operation is in flight for an id, any second
lifecycle request for that id fails with `OperationInProgress` and
leaves the state — in particular the runtime-call log — unchanged; and
two rapid `requestStart` calls for the same id issue exactly one
`start` runtime call, the second returning `OperationInProgress`. -/
theorem operation_in_progress_exclusion :
    (∀ (s : SysState) (sid : Nat) (ev : SysEvent),
        busy s sid = true → requestsId ev sid →
        sysStep s ev = (s, Except.error LcError.OperationInProgress)) ∧
    (∀ (s : SysState) (sid c : Nat) (row : ManagedServer),
        busy s sid = false →
        findRow s.reg sid = some row →
        row.observedState = ObservedState.Stopped →
        row.containerRef = some c →
        (sysStep (sysStep s (SysEvent.requestStart sid)).1
            (SysEvent.requestStart sid)).2 =
          Except.error LcError.OperationInProgress ∧
          (sysStep (sysStep s (SysEvent.requestStart sid)).1
            (SysEvent.requestStart sid)).1.calls =
            s.calls ++ [RuntimeCall.start c]) := by
  constructor
  · intro s sid ev hb hreq
    cases ev <;> simp only [requestsId] at hreq
    all_goals subst hreq
    all_goals simp [sysStep, hb]
  · intro s sid c row hb hfind hobs hcref
    have h₁ : sysStep s (SysEvent.requestStart sid) =
        ({ reg := applyMark s.reg sid DesiredState.Running
           inFlight := (sid, PendingOp.starting c) :: s.inFlight
           calls := s.calls ++ [RuntimeCall.start c] }, Except.ok ()) := by
      simp [sysStep, hb, hfind, hobs, hcref]
    rw [h₁]
    constructor
    · simp [sysStep, busy]
    · simp [sysStep, busy]

/-- A Stopped row holding container 7, for the C5 witness. -/
def srvDelta : ManagedServer :=
  { id := 3
    name := "delta"
    templateRef := "paper"
    containerRef := some 7
    desiredState := DesiredState.Stopped
    observedState := ObservedState.Stopped
    hostPort := 25567
    gamePort := 8103
    dataVolumeRef := 3
    autoRestart := false
    lastError := none }

/-- Idle controller state over a registry holding `delta`. -/
def sysIdle : SysState :=
  { reg :=
      { cfg := { hostBase := 25565, gameBase := 8101, portCount := 4 }
        rows := [srvDelta]
        nextId := 4 }
    inFlight := []
    calls := [] }

/-- Controller state with a start already in flight for id 3. -/
def sysBusy : SysState :=
  { reg := sysIdle.reg
    inFlight := [(3, PendingOp.starting 7)]
    calls := [] }

/-- Witness for C5 at concrete states: a request against a busy id is
refused without a call, and a rapid double `requestStart` issues
exactly one `start`. -/
theorem operation_in_progress_exclusion_witness :
    sysStep sysBusy (SysEvent.requestStart 3) =
        (sysBusy, Except.error LcError.OperationInProgress) ∧
      ((sysStep (sysStep sysIdle (SysEvent.requestStart 3)).1
          (SysEvent.requestStart 3)).2 =
        Except.error LcError.OperationInProgress ∧
        (sysStep (sysStep sysIdle (SysEvent.requestStart 3)).1
          (SysEvent.requestStart 3)).1.calls =
          sysIdle.calls ++ [RuntimeCall.start 7]) :=
  ⟨operation_in_progress_exclusion.1 sysBusy 3 (SysEvent.requestStart 3)
      (by decide) rfl,
    operation_in_progress_exclusion.2 sysIdle 3 7 srvDelta
      (by decide) rfl rfl rfl⟩

/-! ## Proxy Reload Coordinator (spec §4.5) -/

/-- Modelled from the spec: bounded reload retries (3 attempts). -/
def maxReloadAttempts : Nat := 3

/-- Modelled from the spec: coordinator state — the last successfully
applied config, the config the proxy is effectively running, and the
count of recorded apply failures. -/
structure CoordState where
  lastApplied : Option String
  proxyEffective : Option String
  failures : Nat
deriving DecidableEq, Repr

/-- Modelled from the spec: one debounced coordinator reaction to
registry change events.  It synthesizes a config from the snapshot,
compares it byte-for-byte against the last successfully applied config
and, only if different, attempts `applyConfig` with bounded retries
(`outcomes` lists the would-be results of successive attempts); on
exhaustion the failure is recorded and the previously applied config
remains in effect.  The returned flag says whether an apply was
attempted. -/
def coordStep (rows : List ManagedServer) (c : CoordState) (outcomes : List Bool) :
    CoordState × Bool :=
  let cfg := synthesize rows
  if c.lastApplied = some cfg then (c, false)
  else if (outcomes.take maxReloadAttempts).any id then
    ({ lastApplied := some cfg, proxyEffective := some cfg,
       failures := c.failures }, true)
  else
    ({ c with failures := c.failures + 1 }, true)

/-- C6: the Reload Coordinator never applies a config when the newly
synthesized output is byte-for-byte equal to the last successfully
applied config: the step performs no apply and leaves the coordinator
unchanged.  Quantifying over every coordinator state and snapshot
covers every sequence of RegistryChangeEvents, including repeated
no-op events. -/
theorem coordinator_no_reapply_unchanged (rows : List ManagedServer)
    (c : CoordState) (outcomes : List Bool)
    (h : c.lastApplied = some (synthesize rows)) :
    coordStep rows c outcomes = (c, false) := by
  unfold coordStep
  simp [h]

/-- A coordinator that already applied the config of `[srvAlpha]`. -/
def coordUpToDate : CoordState :=
  { lastApplied := some (synthesize [srvAlpha])
    proxyEffective := some (synthesize [srvAlpha])
    failures := 0 }

/-- Witness for C6: a no-op event over an unchanged snapshot is not
applied even though an apply attempt would succeed. -/
theorem coordinator_no_reapply_unchanged_witness :
    coordStep [srvAlpha] coordUpToDate [true] = (coordUpToDate, false) :=
  coordinator_no_reapply_unchanged [srvAlpha] coordUpToDate [true] rfl

/-- Modelled from the spec: whole-engine state — the Lifecycle
Controller (owning the registry) plus the Reload Coordinator. -/
structure FullState where
  sys : SysState
  coord : CoordState
deriving Repr

/-- Modelled from the spec: a debounced coordinator wake-up processing
the current registry snapshot; the coordinator has no write access to
the registry. -/
def proxySync (st : FullState) (outcomes : List Bool) : FullState :=
  { st with coord := (coordStep st.sys.reg.rows st.coord outcomes).1 }

/-- A failed apply (all attempts fail) leaves both the effective proxy
config and the last-applied config unchanged. -/
theorem coordStep_fail_frame (rows : List ManagedServer) (c : CoordState)
    (outcomes : List Bool) (hfail : ∀ b ∈ outcomes, b = false) :
    (coordStep rows c outcomes).1.proxyEffective = c.proxyEffective ∧
      (coordStep rows c outcomes).1.lastApplied = c.lastApplied := by
  have hany : ((outcomes.take maxReloadAttempts).any id) = false := by
    rw [List.any_eq_false]
    intro b hb
    have hb' := hfail b (List.take_subset _ _ hb)
    simp [hb']
  unfold coordStep
  by_cases hsame : c.lastApplied = some (synthesize rows)
  · simp [hsame]
  · simp [hsame, hany]

/-- C7: when a proxy reload fails after exhausting its bounded retries,
the previously applied config remains in effect and the registry is not
rolled back — the failed sync changes neither the proxy's effective
config, nor the last-applied config, nor any `ManagedServer` row. -/
theorem failed_apply_preserves_proxy_and_registry (st : FullState)
    (outcomes : List Bool) (hfail : ∀ b ∈ outcomes, b = false) :
    (proxySync st outcomes).coord.proxyEffective = st.coord.proxyEffective ∧
      (proxySync st outcomes).coord.lastApplied = st.coord.lastApplied ∧
      (proxySync st outcomes).sys.reg.rows = st.sys.reg.rows :=
  ⟨(coordStep_fail_frame st.sys.reg.rows st.coord outcomes hfail).1,
    (coordStep_fail_frame st.sys.reg.rows st.coord outcomes hfail).2, rfl⟩

/-- A full-engine state whose proxy runs an older config. -/
def fullStale : FullState :=
  { sys := sysIdle
    coord := { lastApplied := some "", proxyEffective := some "", failures := 0 } }

/-- Witness for C7: three failed attempts leave proxy config and
registry rows untouched. -/
theorem failed_apply_preserves_proxy_and_registry_witness :
    (proxySync fullStale [false, false, false]).coord.proxyEffective =
        fullStale.coord.proxyEffective ∧
      (proxySync fullStale [false, false, false]).coord.lastApplied =
        fullStale.coord.lastApplied ∧
      (proxySync fullStale [false, false, false]).sys.reg.rows =
        fullStale.sys.reg.rows :=
  failed_apply_preserves_proxy_and_registry fullStale [false, false, false]
    (by decide)

/-! ## Frontend ServerList component
(`src/frontend/src/components/ServerList.tsx`) -/

/-- The `Server` interface of `ServerList.tsx`. -/
structure Server where
  id : String
  name : String
  status : String
deriving DecidableEq, Repr

/-- A settled `GET /api/servers` request as the component sees it:
either a rejected promise, or a resolved body whose `servers` field may
be absent. -/
inductive ApiResponse
  | rejected
  | resolved (servers : Option (List Server))
deriving DecidableEq, Repr

/-- From `ServerList.tsx` lines 13-18: the state set once the request
settles — `res.data.servers ?? []` on success, `[]` on rejection. -/
def serversFromResponse : ApiResponse → List Server
  | ApiResponse.rejected => []
  | ApiResponse.resolved none => []
  | ApiResponse.resolved (some l) => l

/-- One rendered entry of the list: a per-server item showing name and
status, or the empty-state notice text. -/
inductive RenderedItem
  | serverItem (name : String) (status : String)
  | notice (text : String)
deriving DecidableEq, Repr

/-- From `ServerList.tsx` lines 20-39: the rendered list — one item per
server from `servers.map`, and the notice exactly when
`servers.length === 0`. -/
def render (servers : List Server) : List RenderedItem :=
  (servers.map fun s => RenderedItem.serverItem s.name s.status) ++
    (if servers.length = 0 then [RenderedItem.notice "No servers yet."] else [])

/-- C8: for a rejected request or a body with no `servers` field the
component state is the empty list and the render is exactly the text
`No servers yet.`; `render ∘ serversFromResponse` is a total function,
so every settled response renders without throwing. -/
theorem serverlist_error_renders_empty (resp : ApiResponse)
    (h : resp = ApiResponse.rejected ∨ resp = ApiResponse.resolved none) :
    serversFromResponse resp = [] ∧
      render (serversFromResponse resp) = [RenderedItem.notice "No servers yet."] := by
  rcases h with rfl | rfl <;> exact ⟨rfl, rfl⟩

/-- Witness for C8 at a rejected request. -/
theorem serverlist_error_renders_empty_witness :
    serversFromResponse ApiResponse.rejected = [] ∧
      render (serversFromResponse ApiResponse.rejected) =
        [RenderedItem.notice "No servers yet."] :=
  serverlist_error_renders_empty ApiResponse.rejected (Or.inl rfl)

/-- C9: for a non-empty server list the component renders exactly one
item per server, in the order the API returned them (no sorting or
filtering), showing each server's name and status — and no empty-state
notice. -/
theorem serverlist_renders_in_order (servers : List Server) (h : servers ≠ []) :
    render servers = servers.map fun s => RenderedItem.serverItem s.name s.status := by
  unfold render
  rw [if_neg (fun hc => h (List.length_eq_zero.1 hc)), List.append_nil]

/-- Witness for C9 at a concrete two-element response. -/
theorem serverlist_renders_in_order_witness :
    render [{ id := "1", name := "alpha", status := "running" },
        { id := "2", name := "beta", status := "stopped" }] =
      [RenderedItem.serverItem "alpha" "running",
        RenderedItem.serverItem "beta" "stopped"] := by
  rw [serverlist_renders_in_order
    [{ id := "1", name := "alpha", status := "running" },
      { id := "2", name := "beta", status := "stopped" }] (by decide)]
  rfl

/-- From `ServerList.tsx` lines 13-18: the effect hook has `[]` dependencies,
so it runs once on mount; its body issues this single request. -/
def requestsOnMount : List String := ["GET /api/servers"]

/-- A click handler: a state transition naming the requests it issues. -/
def ClickHandler : Type := List Server → List Server × List String

/-- From `ServerList.tsx` lines 30-33: the Start button element carries no
`onClick` prop. -/
def startButtonHandler : Option ClickHandler := none

/-- From `ServerList.tsx` lines 30-33: the Stop button element carries no
`onClick` prop. -/
def stopButtonHandler : Option ClickHandler := none

/-- React click dispatch: a button without a handler changes no state
and issues no request. -/
def dispatchClick (h : Option ClickHandler) (st : List Server) :
    List Server × List String :=
  match h with
  | none => (st, [])
  | some f => f st

/-- C10: on mount the component issues exactly one request, the GET of
`/api/servers`, and clicking Start or Stop — buttons with no click
handler — changes no component state and issues no request. -/
theorem serverlist_mount_once_buttons_inert :
    requestsOnMount = ["GET /api/servers"] ∧ requestsOnMount.length = 1 ∧
      (∀ st : List Server, dispatchClick startButtonHandler st = (st, [])) ∧
      (∀ st : List Server, dispatchClick stopButtonHandler st = (st, [])) :=
  ⟨rfl, rfl, fun _ => rfl, fun _ => rfl⟩

end Velarium
